import Mathlib

/-!
# Quest Log — verification of the recurrence/generation/status core

Shallow embedding of the Quest Log server core:

* `generateQuestsFromTemplates` (template → instance generation, including
  the inline recurrence evaluation switch and the `countCompletions`
  period counter closure),
* `createQuest` and `calculateAutoDeadline`,
* `updateQuestStatus` and the `quest.updateStatus` route (status lifecycle,
  XP award, history snapshot),
* `updateUserProgression` (streak / XP accounting) and `calculateXpReward`.

Persistence is modelled as explicit lists of rows; JS `Date` values are
modelled as calendar dates together with their day number (`rataDie`), so
that day-of-week arithmetic (`getDay`) and day-level timestamp comparisons
(`recordedAt >= startDate`) are exact.  External collaborators excluded by
the specification (spreadsheet export, auth, HTTP plumbing) are omitted;
they only read data.
-/

namespace QuestLog

/-! ## Calendar dates

A calendar date in the proleptic Gregorian calendar.  `rataDie` counts days
from 0001-01-01 (= day 1, a Monday), so `rataDie d % 7` is exactly the
JavaScript `Date.prototype.getDay` convention (0 = Sunday .. 6 = Saturday).
-/

structure Date where
  year : Nat
  month : Nat
  day : Nat
deriving DecidableEq, Repr

def isLeap (y : Nat) : Bool :=
  (y % 4 == 0 && y % 100 != 0) || y % 400 == 0

def daysInMonth (y m : Nat) : Nat :=
  match m with
  | 1 => 31
  | 2 => if isLeap y then 29 else 28
  | 3 => 31
  | 4 => 30
  | 5 => 31
  | 6 => 30
  | 7 => 31
  | 8 => 31
  | 9 => 30
  | 10 => 31
  | 11 => 30
  | _ => 31

/-- Days in the months strictly before month `m`, in a non-leap year. -/
def monthsBefore (m : Nat) : Nat :=
  match m with
  | 1 => 0
  | 2 => 31
  | 3 => 59
  | 4 => 90
  | 5 => 120
  | 6 => 151
  | 7 => 181
  | 8 => 212
  | 9 => 243
  | 10 => 273
  | 11 => 304
  | _ => 334

def dayOfYear (d : Date) : Nat :=
  monthsBefore d.month + (if 2 < d.month && isLeap d.year then 1 else 0) + d.day

def leapCount (n : Nat) : Nat :=
  n / 4 - n / 100 + n / 400

/-- Day number of a date: 0001-01-01 ↦ 1. -/
def rataDie (d : Date) : Nat :=
  365 * (d.year - 1) + leapCount (d.year - 1) + dayOfYear d

/-- JavaScript `getDay()`: 0 = Sunday, 1 = Monday, ..., 6 = Saturday. -/
def getDay (d : Date) : Nat :=
  rataDie d % 7

/-- JavaScript `getDate()` is the day of month; the generator computes
`Math.ceil(currentDate / 7)` as the week-of-month ordinal. -/
def weekOfMonth (d : Date) : Nat :=
  (d.day + 6) / 7

/-- The previous calendar day (JS: `d.setDate(d.getDate() - 1)`). -/
def predDate (d : Date) : Date :=
  if 1 < d.day then { d with day := d.day - 1 }
  else if 1 < d.month then { year := d.year, month := d.month - 1, day := daysInMonth d.year (d.month - 1) }
  else { year := d.year - 1, month := 12, day := 31 }

/-- The next calendar day (JS: `d.setDate(d.getDate() + 1)`). -/
def succDate (d : Date) : Date :=
  if d.day < daysInMonth d.year d.month then { d with day := d.day + 1 }
  else if d.month < 12 then { year := d.year, month := d.month + 1, day := 1 }
  else { year := d.year + 1, month := 1, day := 1 }

/-- `d` shifted forward by `k` days (JS: `d.setDate(d.getDate() + k)`). -/
def addDays (d : Date) (k : Nat) : Date :=
  succDate^[k] d

/-! ## Domain enumerations (drizzle schema text enums) -/

inductive QuestType
  | Daily | Weekly | Monthly | Yearly | Free | Project | Relax
deriving DecidableEq, Repr

/-- `difficulty` column: text `"1" | "2" | "3"` (NOT NULL, default `"1"`). -/
inductive Difficulty
  | d1 | d2 | d3
deriving DecidableEq, Repr

inductive QStatus
  | unreceived | accepted | challenging | almost | cleared | paused | cancelled | failed
deriving DecidableEq, Repr

/-- The four non-terminal statuses, as enumerated by the generator's
`activeQuests` query (`unreceived`, `accepted`, `challenging`, `almost`). -/
def isOpenStatus (s : QStatus) : Bool :=
  s == .unreceived || s == .accepted || s == .challenging || s == .almost

def isTerminalStatus (s : QStatus) : Bool :=
  s == .cleared || s == .paused || s == .cancelled || s == .failed

/-! ## Stored JSON constraint columns

`daysOfWeek` / `weeksOfMonth` / `datesOfMonth` are nullable text columns
holding JSON arrays.  `StoredJson` captures the three outcomes the code's
`parseJson` helper distinguishes: SQL NULL, a string `JSON.parse` throws on,
and a parsed array. -/

inductive StoredJson
  | absent
  | malformed
  | list (xs : List Nat)
deriving DecidableEq, Repr

/-- `const parseJson = (str) => { if (!str) return []; try { return JSON.parse(str); } catch { return []; } }` -/
def parseJson : StoredJson → List Nat
  | .absent => []
  | .malformed => []
  | .list xs => xs

/-! ## Rows -/

structure QuestTemplate where
  id : Nat
  userId : Nat
  questName : Option String
  projectName : Option String
  questType : QuestType
  difficulty : Difficulty
  frequency : Nat
  daysOfWeek : StoredJson
  weeksOfMonth : StoredJson
  datesOfMonth : StoredJson
  monthOfYear : Option Nat
  isActive : Bool
deriving DecidableEq, Repr

structure Quest where
  id : Nat
  userId : Nat
  questName : Option String
  projectName : Option String
  questType : QuestType
  difficulty : Difficulty
  status : QStatus
  deadline : Option Date
  templateId : Option Nat
  acceptedAt : Option Date
  clearedAt : Option Date
deriving DecidableEq, Repr

structure QuestHistory where
  userId : Nat
  questId : Nat
  questName : Option String
  projectName : Option String
  questType : QuestType
  difficulty : Difficulty
  finalStatus : QStatus
  xpEarned : Nat
  /-- `recordedAt` timestamp, at day granularity (its day number). -/
  recordedAt : Nat
  templateId : Option Nat
deriving DecidableEq, Repr

structure UserProgression where
  userId : Nat
  totalXp : Nat
  currentStreak : Nat
  longestStreak : Nat
  lastClearedDate : Option Date
deriving DecidableEq, Repr

/-- JS `x || null` for nullable strings: the empty string is falsy. -/
def orNullStr (s : Option String) : Option String :=
  match s with
  | none => none
  | some t => if t = "" then none else some t

/-- JS `x || null` for nullable numeric foreign keys: `0` is falsy. -/
def orNullNat (n : Option Nat) : Option Nat :=
  match n with
  | none => none
  | some 0 => none
  | some (k + 1) => some (k + 1)

/-! ## `calculateAutoDeadline`

The source returns end-of-day timestamps (23:59:59.999); at day granularity
the deadline is the returned calendar day. -/

def calculateAutoDeadline (today : Date) (questType : QuestType) : Option Date :=
  match questType with
  | .Daily => some today
  | .Weekly =>
      -- daysUntilSunday = dayOfWeek === 0 ? 0 : 7 - dayOfWeek
      some (addDays today (if getDay today == 0 then 0 else 7 - getDay today))
  | .Monthly =>
      -- new Date(y, m + 1, 0) = last day of the current month
      some { year := today.year, month := today.month, day := daysInMonth today.year today.month }
  | .Yearly => some { year := today.year, month := 12, day := 31 }
  | _ => none

/-! ## `createQuest`

`deadline : Option (Option Date)` distinguishes an absent key
(`input.deadline === undefined`) from an explicit `null`. -/

structure CreateQuestInput where
  questName : Option String
  projectName : Option String
  questType : QuestType
  difficulty : Option Difficulty
  deadline : Option (Option Date)
  templateId : Option Nat
  autoDeadline : Option Bool
  status : Option QStatus
deriving DecidableEq, Repr

def createQuest (today : Date) (questId : Nat) (userId : Nat)
    (input : CreateQuestInput) : Quest :=
  let deadline : Option Date :=
    match input.deadline with
    | some d => d
    | none => if input.autoDeadline != some false
              then calculateAutoDeadline today input.questType
              else none
  { id := questId
    userId := userId
    questName := orNullStr input.questName
    projectName := orNullStr input.projectName
    questType := input.questType
    difficulty := input.difficulty.getD .d1
    status := input.status.getD .unreceived
    deadline := deadline
    templateId := orNullNat input.templateId
    acceptedAt := if input.status == some .accepted then some today else none
    clearedAt := none }

end QuestLog

namespace QuestLog

/-! ## Generation: recurrence evaluation

Direct translation of the `switch (template.questType)` in
`generateQuestsFromTemplates`.  The source file has no `case "Monthly":`
label: the block implementing the documented Monthly logic sits after the
`break;` of `case "Weekly":` and is therefore unreachable, so for a Monthly
template (and for Free/Project/Relax) the switch leaves `isTodayValid`
at its initial `false`. -/

def isTodayValid (t : QuestTemplate) (today : Date) : Bool :=
  let days := parseJson t.daysOfWeek
  match t.questType with
  | .Daily => true
  | .Weekly =>
      if days.length == 0 then false
      else days.contains (getDay today)
  | .Yearly =>
      let weeks := parseJson t.weeksOfMonth
      if t.monthOfYear == some today.month then
        (weeks.length == 0 || weeks.contains (weekOfMonth today)) &&
        (days.length == 0 || days.contains (getDay today))
      else false
  | _ => false

/-- The unreachable Monthly block of the same switch, as written in the
source after `case "Weekly":`'s `break;` (dates match, else week+day match,
else pool).  Never executed by `generateQuestsFromTemplates`; kept to state
what the dead code would compute. -/
def monthlyDeadBranch (t : QuestTemplate) (today : Date) : Bool :=
  let days := parseJson t.daysOfWeek
  let dates := parseJson t.datesOfMonth
  let weeks := parseJson t.weeksOfMonth
  if dates.length > 0 then dates.contains today.day
  else if weeks.length > 0 then
    weeks.contains (weekOfMonth today) &&
    (days.length == 0 || days.contains (getDay today))
  else false

/-! ## Generation: the `countCompletions` period counter -/

/-- `template.frequency || 1`. -/
def freqOf (t : QuestTemplate) : Nat :=
  if t.frequency == 0 then 1 else t.frequency

/-- `templates.find(t => t.id === templateId)?.questName || ""`. -/
def fallbackName (templates : List QuestTemplate) (templateId : Nat) : String :=
  match (templates.find? (fun t => t.id == templateId)).bind (fun t => t.questName) with
  | some n => if n == "" then "" else n
  | none => ""

/-- Window start used by `countCompletions` (a day number).

For Weekly the source runs `d2.setDate(now.getDate() - now.getDay())`,
i.e. it moves the timestamp back by `getDay now` days (JS `setDate`
rolls over month boundaries), landing on the most recent Sunday.  On day
numbers that is exactly `rataDie now - getDay now`. -/
def completionWindowStart (questType : QuestType) (now : Date) : Option Nat :=
  match questType with
  | .Weekly => some (rataDie now - getDay now)
  | .Monthly => some (rataDie { year := now.year, month := now.month, day := 1 })
  | .Yearly => some (rataDie { year := now.year, month := 1, day := 1 })
  | _ => none

/-- The `countCompletions` closure of `generateQuestsFromTemplates`.

Returns 0 outright for every type other than Weekly/Monthly/Yearly
(`return 0; // Daily resets daily`); otherwise counts `questHistory` rows
with matching `questType`, matching `templateId` (or, for rows whose
`templateId` is NULL, `questName` equal to the template's name), a
`recordedAt` on or after the window start, and `finalStatus = "cleared"`.
The query has no upper bound on `recordedAt` and no `userId` filter. -/
def countCompletions (templates : List QuestTemplate) (history : List QuestHistory)
    (now : Date) (templateId : Nat) (questType : QuestType) : Nat :=
  match completionWindowStart questType now with
  | none => 0
  | some start =>
      history.countP (fun r =>
        r.questType == questType &&
        (r.templateId == some templateId ||
          (r.templateId == none && r.questName == some (fallbackName templates templateId))) &&
        start ≤ r.recordedAt &&
        r.finalStatus == .cleared)

/-! ## Generation: the per-template pass -/

/-- A template joined with its project row's name (`leftJoin(projects, ...)`). -/
abbrev TemplateWithProject := QuestTemplate × Option String

/-- Whether the pass materializes an instance for `t`: steps 2-4 of the
per-template loop (today valid; no open instance in the `activeQuests`
snapshot; period quota not met). -/
def shouldGenerate (templates : List QuestTemplate) (history : List QuestHistory)
    (active : List Quest) (today : Date) (t : QuestTemplate) : Bool :=
  isTodayValid t today &&
  !(active.any (fun q => q.templateId == some t.id)) &&
  countCompletions templates history today t.id t.questType < freqOf t

/-- `${template.questName} (${currentCount + 1}/${freq})`; a NULL name
renders as the string `"null"` in a JS template literal. -/
def annotatedName (name : Option String) (count freq : Nat) : String :=
  (name.getD "null") ++ " (" ++ toString (count + 1) ++ "/" ++ toString freq ++ ")"

/-- The `createQuest` call issued by the generation loop. -/
def generatedQuest (templates : List QuestTemplate) (history : List QuestHistory)
    (today : Date) (questId : Nat) (userId : Nat) (tw : TemplateWithProject) : Quest :=
  let t := tw.1
  let freq := freqOf t
  let count := countCompletions templates history today t.id t.questType
  let questName := if freq > 1 then some (annotatedName t.questName count freq) else t.questName
  createQuest today questId userId
    { questName := questName
      projectName := match tw.2 with
                     | some "" => t.projectName
                     | some p => some p
                     | none => t.projectName
      questType := t.questType
      difficulty := some t.difficulty
      deadline := none
      templateId := some t.id
      autoDeadline := some true
      status := none }

/-- Mutable store state seen by the generator: the `quests` table and the
next AUTOINCREMENT id.  (`questHistory` is read-only during a pass and the
`lastGeneratedAt` stamp is informational, so neither is part of the state.) -/
structure GenState where
  quests : List Quest
  nextQuestId : Nat
deriving DecidableEq, Repr

/-- The per-template loop.  `active` is the snapshot of open quests taken
once before the loop; quests created during the pass are inserted into the
store but do not join the snapshot. -/
def genLoop (templates : List QuestTemplate) (history : List QuestHistory)
    (active : List Quest) (today : Date) (userId : Nat) :
    List TemplateWithProject → GenState → GenState × List Quest
  | [], s => (s, [])
  | tw :: rest, s =>
      if shouldGenerate templates history active today tw.1 then
        let q := generatedQuest templates history today s.nextQuestId userId tw
        let r := genLoop templates history active today userId rest
          { quests := s.quests ++ [q], nextQuestId := s.nextQuestId + 1 }
        (r.1, q :: r.2)
      else
        genLoop templates history active today userId rest s

/-- `generateQuestsFromTemplates(userId)`: filters the caller's active
templates, snapshots the open quests, and runs the per-template loop.
Returns the new store state and the list of generated quests. -/
def generateQuestsFromTemplates (userId : Nat) (allTemplates : List TemplateWithProject)
    (history : List QuestHistory) (today : Date) (s : GenState) : GenState × List Quest :=
  let tws := allTemplates.filter (fun tw => tw.1.userId == userId && tw.1.isActive)
  let active := s.quests.filter (fun q => q.userId == userId && isOpenStatus q.status)
  genLoop (tws.map (fun tw => tw.1)) history active today userId tws s

end QuestLog

namespace QuestLog

/-! ## `calculateXpReward` -/

def calculateXpReward (difficulty : Difficulty) : Nat :=
  match difficulty with
  | .d1 => 10
  | .d2 => 25
  | .d3 => 50

/-! ## `updateUserProgression` (streak / XP accounting)

Pure core of `updateUserProgression(userId, { xpGain, questCleared })`
applied to one `user_progression` row; `today` is the local calendar date
and the source's `yesterday` is `predDate today`. -/

def progressionStep (p : UserProgression) (today : Date)
    (xpGain : Nat) (questCleared : Bool) : UserProgression :=
  -- if (input.xpGain) newTotalXp += input.xpGain
  let newTotalXp := if xpGain != 0 then p.totalXp + xpGain else p.totalXp
  if questCleared then
    if p.lastClearedDate == some today then
      -- already cleared today: streak fields untouched
      { p with totalXp := newTotalXp }
    else
      let yesterday := predDate today
      let newCurrentStreak :=
        if p.lastClearedDate == some yesterday then p.currentStreak + 1
        else if p.lastClearedDate == none then 1
        else 1
      let newLongestStreak :=
        if newCurrentStreak > p.longestStreak then newCurrentStreak else p.longestStreak
      { p with
          totalXp := newTotalXp
          currentStreak := newCurrentStreak
          longestStreak := newLongestStreak
          lastClearedDate := some today }
  else
    { p with totalXp := newTotalXp }

/-- `getUserProgression`: the existing row, or a freshly inserted default. -/
def getUserProgression (userId : Nat) (progs : List UserProgression) : UserProgression :=
  match progs.find? (fun p => p.userId == userId) with
  | some p => p
  | none => { userId := userId, totalXp := 0, currentStreak := 0,
              longestStreak := 0, lastClearedDate := none }

/-- `updateUserProgression` acting on the `user_progression` table: read (or
create) the caller's row, apply `progressionStep`, write it back. -/
def updateUserProgression (userId : Nat) (today : Date)
    (xpGain : Nat) (questCleared : Bool)
    (progs : List UserProgression) : List UserProgression :=
  let p := getUserProgression userId progs
  let p2 := progressionStep p today xpGain questCleared
  match progs.find? (fun q => q.userId == userId) with
  | some _ => progs.map (fun q => if q.userId == userId then p2 else q)
  | none => progs ++ [p2]

/-! ## `updateQuestStatus` and the `quest.updateStatus` route -/

/-- The UPDATE of `updateQuestStatus`: rows matching `id` AND `userId` get
the new status (plus `acceptedAt` / `clearedAt` stamps). -/
def applyStatusUpdate (questId userId : Nat) (newStatus : QStatus) (today : Date)
    (q : Quest) : Quest :=
  if q.id == questId && q.userId == userId then
    { q with
        status := newStatus
        acceptedAt := if newStatus == .accepted then some today else q.acceptedAt
        clearedAt := if newStatus == .cleared then some today else q.clearedAt }
  else q

/-- `updateQuestStatus(questId, userId, newStatus)`: runs the guarded
UPDATE, then re-selects **by id only** (`where(eq(quests.id, questId))`,
without the userId condition) and returns that row, or `undefined`
(`none`) when no row has this id. -/
def updateQuestStatus (questId userId : Nat) (newStatus : QStatus) (today : Date)
    (quests : List Quest) : List Quest × Option Quest :=
  let quests2 := quests.map (applyStatusUpdate questId userId newStatus today)
  (quests2, quests2.find? (fun q => q.id == questId))

structure AppState where
  quests : List Quest
  history : List QuestHistory
  progressions : List UserProgression
deriving DecidableEq, Repr

/-- What the `quest.updateStatus` mutation hands back to its caller.
`runtimeError` marks a thrown JS `TypeError` (property access on the
`undefined` result of `updateQuestStatus`). -/
inductive RouteOutcome
  | ok (quest : Option Quest) (xpEarned : Option Nat)
  | runtimeError
deriving DecidableEq, Repr

/-- `addToHistory`: inserts exactly one `questHistory` row. -/
def historyRecord (userId questId : Nat) (q : Quest) (finalStatus : QStatus)
    (xpEarned : Nat) (today : Date) : QuestHistory :=
  { userId := userId
    questId := questId
    questName := orNullStr q.questName
    projectName := orNullStr q.projectName
    questType := q.questType
    difficulty := q.difficulty
    finalStatus := finalStatus
    xpEarned := xpEarned
    recordedAt := rataDie today
    templateId := orNullNat q.templateId }

/-- The `quest.updateStatus` tRPC mutation.  `userId` is `ctx.user.id` (the
authenticated caller).  The spreadsheet-export collaborator only reads data
and is external to the core, so it is omitted.  When `updateQuestStatus`
returns `undefined`, the route's later property accesses
(`quest.difficulty`, `quest.questName`, ...) throw for every branch that
dereferences the quest, i.e. for the four terminal target statuses. -/
def updateStatusRoute (userId questId : Nat) (newStatus : QStatus) (today : Date)
    (s : AppState) : AppState × RouteOutcome :=
  let r := updateQuestStatus questId userId newStatus today s.quests
  let s1 : AppState := { s with quests := r.1 }
  match r.2 with
  | none =>
      if isTerminalStatus newStatus then (s1, .runtimeError)
      else (s1, .ok none none)
  | some quest =>
      if newStatus == .cleared then
        let xpReward := calculateXpReward quest.difficulty
        let progs2 := updateUserProgression userId today xpReward true s1.progressions
        let rec1 := historyRecord userId questId quest .cleared xpReward today
        ({ s1 with progressions := progs2, history := s1.history ++ [rec1] },
         .ok (some quest) (some xpReward))
      else if newStatus == .paused || newStatus == .cancelled || newStatus == .failed then
        let rec1 := historyRecord userId questId quest newStatus 0 today
        ({ s1 with history := s1.history ++ [rec1] }, .ok (some quest) none)
      else
        (s1, .ok (some quest) none)

end QuestLog

namespace QuestLog

/-! ## Claim-statement helpers and the spec-side period counter -/

/-- Number of open (non-terminal) instances carrying a given template id. -/
def countOpenFor (tid : Nat) (qs : List Quest) : Nat :=
  qs.countP (fun q => isOpenStatus q.status && q.templateId == some tid)

/-- Modelled from the spec (§4.2 Period Counter): the current period window
containing `asOf`, as an inclusive range of day numbers — a single day for
Daily, Sunday-anchored week for Weekly, first-of-month for Monthly, Jan 1
for Yearly.  Written from the spec's words, for comparison against the
source's `countCompletions`. -/
def specWindow (questType : QuestType) (asOf : Date) : Option (Nat × Nat) :=
  match questType with
  | .Daily => some (rataDie asOf, rataDie asOf)
  | .Weekly => some (rataDie asOf - getDay asOf, rataDie asOf)
  | .Monthly => some (rataDie { year := asOf.year, month := asOf.month, day := 1 }, rataDie asOf)
  | .Yearly => some (rataDie { year := asOf.year, month := 1, day := 1 }, rataDie asOf)
  | _ => none

/-- Modelled from the spec (§4.2): count HistoryRecords with matching
`templateId`, `finalStatus == cleared`, and `recordedDate` within the
current period window. -/
def specPeriodCount (templateId : Nat) (questType : QuestType) (asOf : Date)
    (history : List QuestHistory) : Nat :=
  match specWindow questType asOf with
  | none => 0
  | some (lo, hi) =>
      history.countP (fun r =>
        r.templateId == some templateId && r.finalStatus == .cleared &&
        lo ≤ r.recordedAt && r.recordedAt ≤ hi)

/-! ## Concrete fixtures used by counterexamples and witnesses -/

/-- 2024-02-15, a Thursday (`getDay = 4`). -/
def d0 : Date := ⟨2024, 2, 15⟩

/-- 2024-02-16, a Friday. -/
def d1 : Date := ⟨2024, 2, 16⟩

def tplMonthly115 : QuestTemplate :=
  { id := 1
    userId := 1
    questName := some "pay rent"
    projectName := none
    questType := .Monthly
    difficulty := .d1
    frequency := 1
    daysOfWeek := .absent
    weeksOfMonth := .absent
    datesOfMonth := .list [1, 15]
    monthOfYear := none
    isActive := true }

def tplDaily : QuestTemplate :=
  { id := 2
    userId := 1
    questName := some "stretch"
    projectName := none
    questType := .Daily
    difficulty := .d2
    frequency := 1
    daysOfWeek := .absent
    weeksOfMonth := .absent
    datesOfMonth := .absent
    monthOfYear := none
    isActive := true }

/-- A Weekly template whose `daysOfWeek` column fails to JSON-parse. -/
def tplWeeklyBad : QuestTemplate :=
  { id := 3
    userId := 1
    questName := some "gym"
    projectName := none
    questType := .Weekly
    difficulty := .d1
    frequency := 1
    daysOfWeek := .malformed
    weeksOfMonth := .absent
    datesOfMonth := .absent
    monthOfYear := none
    isActive := true }

/-- A Daily template whose constraint columns fail to JSON-parse. -/
def tplDailyBad : QuestTemplate :=
  { id := 4
    userId := 1
    questName := some "journal"
    projectName := none
    questType := .Daily
    difficulty := .d1
    frequency := 1
    daysOfWeek := .malformed
    weeksOfMonth := .malformed
    datesOfMonth := .malformed
    monthOfYear := none
    isActive := true }

/-- A Weekly template firing on Thursdays (`getDay d0 = 4`). -/
def tplWeeklyThu : QuestTemplate :=
  { id := 5
    userId := 1
    questName := some "review"
    projectName := none
    questType := .Weekly
    difficulty := .d1
    frequency := 1
    daysOfWeek := .list [4]
    weeksOfMonth := .absent
    datesOfMonth := .absent
    monthOfYear := none
    isActive := true }

def emptyGenState : GenState := { quests := [], nextQuestId := 1 }

/-- A history row: the Daily template `tplDaily` was cleared on `d0`. -/
def histDailyCleared : QuestHistory :=
  { userId := 1
    questId := 9
    questName := some "stretch"
    projectName := none
    questType := .Daily
    difficulty := .d2
    finalStatus := .cleared
    xpEarned := 25
    recordedAt := rataDie d0
    templateId := some 2 }

/-- A quest owned by user 2, targeted by user 1 in the C9 counterexample. -/
def foreignQuest : Quest :=
  { id := 7
    userId := 2
    questName := some "their quest"
    projectName := none
    questType := .Daily
    difficulty := .d1
    status := .accepted
    deadline := none
    templateId := none
    acceptedAt := none
    clearedAt := none }

def foreignState : AppState :=
  { quests := [foreignQuest], history := [], progressions := [] }

/-- A quest owned by user 1, in progress. -/
def myQuest : Quest :=
  { id := 5
    userId := 1
    questName := some "ship it"
    projectName := none
    questType := .Daily
    difficulty := .d2
    status := .almost
    deadline := none
    templateId := some 2
    acceptedAt := some d0
    clearedAt := none }

def myState : AppState :=
  { quests := [myQuest], history := [], progressions := [] }

/-- Progression with a 3-day streak whose last clear was yesterday
(`predDate d0 = 2024-02-14`). -/
def streakFixture : UserProgression :=
  { userId := 1
    totalXp := 100
    currentStreak := 3
    longestStreak := 5
    lastClearedDate := some ⟨2024, 2, 14⟩ }

/-- The quest the pass over `[(tplDaily, none)]` on `d0` creates (id 1 is
the next AUTOINCREMENT value of `emptyGenState`). -/
def sampleGenerated : Quest :=
  { id := 1
    userId := 1
    questName := some "stretch"
    projectName := none
    questType := .Daily
    difficulty := .d2
    status := .unreceived
    deadline := some d0
    templateId := some 2
    acceptedAt := none
    clearedAt := none }

def emptyAppState : AppState :=
  { quests := [], history := [], progressions := [] }

/-! ## Structural lemmas about the generation loop -/

section GenLemmas

variable (T : List QuestTemplate) (H : List QuestHistory) (A : List Quest)
  (today : Date) (u : Nat)

theorem generatedQuest_status (n : Nat) (tw : TemplateWithProject) :
    (generatedQuest T H today n u tw).status = .unreceived := rfl

theorem generatedQuest_acceptedAt (n : Nat) (tw : TemplateWithProject) :
    (generatedQuest T H today n u tw).acceptedAt = none := rfl

theorem generatedQuest_templateId (n : Nat) (tw : TemplateWithProject) :
    (generatedQuest T H today n u tw).templateId = orNullNat (some tw.1.id) := rfl

theorem generatedQuest_questType (n : Nat) (tw : TemplateWithProject) :
    (generatedQuest T H today n u tw).questType = tw.1.questType := rfl

theorem generatedQuest_difficulty (n : Nat) (tw : TemplateWithProject) :
    (generatedQuest T H today n u tw).difficulty = tw.1.difficulty := rfl

theorem generatedQuest_deadline (n : Nat) (tw : TemplateWithProject) :
    (generatedQuest T H today n u tw).deadline = calculateAutoDeadline today tw.1.questType := rfl

theorem generatedQuest_userId (n : Nat) (tw : TemplateWithProject) :
    (generatedQuest T H today n u tw).userId = u := rfl

/-- A generation pass only appends to the `quests` table: the final store is
the initial store followed by exactly the generated quests. -/
theorem genLoop_quests_append :
    ∀ (tws : List TemplateWithProject) (s : GenState),
      (genLoop T H A today u tws s).1.quests
        = s.quests ++ (genLoop T H A today u tws s).2 := by
  intro tws
  induction tws with
  | nil => intro s; simp [genLoop]
  | cons tw rest ih =>
      intro s
      by_cases h : shouldGenerate T H A today tw.1 = true
      · simp only [genLoop, h, if_pos]
        rw [ih]
        simp
      · simp only [genLoop, h]
        rw [if_neg (by simp [h])]
        exact ih s

/-- Every quest produced by the loop comes from some template of the list
whose generation decision was positive. -/
theorem genLoop_mem :
    ∀ (tws : List TemplateWithProject) (s : GenState) (q : Quest),
      q ∈ (genLoop T H A today u tws s).2 →
      ∃ tw, tw ∈ tws ∧ shouldGenerate T H A today tw.1 = true
        ∧ ∃ n, q = generatedQuest T H today n u tw := by
  intro tws
  induction tws with
  | nil => intro s q hq; simp [genLoop] at hq
  | cons tw rest ih =>
      intro s q hq
      by_cases h : shouldGenerate T H A today tw.1 = true
      · simp only [genLoop, h, if_pos] at hq
        rcases List.mem_cons.mp hq with hq | hq
        · exact ⟨tw, List.mem_cons_self _ _, h, s.nextQuestId, hq⟩
        · rcases ih _ q hq with ⟨tw2, htw2, hd, n, hn⟩
          exact ⟨tw2, List.mem_cons_of_mem _ htw2, hd, n, hn⟩
      · simp only [genLoop, h] at hq
        rw [if_neg (by simp [h])] at hq
        rcases ih s q hq with ⟨tw2, htw2, hd, n, hn⟩
        exact ⟨tw2, List.mem_cons_of_mem _ htw2, hd, n, hn⟩

/-- If no template of the list passes the decision, the loop is a no-op. -/
theorem genLoop_all_false :
    ∀ (tws : List TemplateWithProject) (s : GenState),
      (∀ tw ∈ tws, shouldGenerate T H A today tw.1 = false) →
      genLoop T H A today u tws s = (s, []) := by
  intro tws
  induction tws with
  | nil => intro s _; rfl
  | cons tw rest ih =>
      intro s hall
      have h0 : shouldGenerate T H A today tw.1 = false :=
        hall tw (List.mem_cons_self _ _)
      simp only [genLoop]
      rw [if_neg (by simp [h0])]
      exact ih s (fun tw2 h2 => hall tw2 (List.mem_cons_of_mem _ h2))

/-- The template ids of the generated quests, in closed form: one entry per
template whose decision is positive. -/
theorem genLoop_ids :
    ∀ (tws : List TemplateWithProject) (s : GenState),
      (genLoop T H A today u tws s).2.map (fun q => q.templateId)
        = tws.filterMap (fun tw =>
            if shouldGenerate T H A today tw.1 = true
            then some (orNullNat (some tw.1.id)) else none) := by
  intro tws
  induction tws with
  | nil => intro s; simp [genLoop]
  | cons tw rest ih =>
      intro s
      by_cases h : shouldGenerate T H A today tw.1 = true
      · simp only [genLoop, h, if_pos, List.filterMap_cons, if_true]
        simp only [List.map_cons]
        rw [ih]
        rfl
      · simp only [genLoop, List.filterMap_cons]
        rw [if_neg (by simp [h]), if_neg h]
        exact ih s

end GenLemmas

end QuestLog

namespace QuestLog

theorem orNullNat_of_ne_zero {x : Nat} (h : x ≠ 0) : orNullNat (some x) = some x := by
  cases x with
  | zero => exact absurd rfl h
  | succ k => rfl

theorem shouldGenerate_eq_true_iff (T : List QuestTemplate) (H : List QuestHistory)
    (A : List Quest) (today : Date) (t : QuestTemplate) :
    shouldGenerate T H A today t = true ↔
      (isTodayValid t today = true
       ∧ A.any (fun q => q.templateId == some t.id) = false
       ∧ countCompletions T H today t.id t.questType < freqOf t) := by
  simp [shouldGenerate, Bool.and_eq_true, Bool.not_eq_true', and_assoc]

/-- A fired template is witnessed by a generated quest carrying its id. -/
theorem genLoop_fired (T : List QuestTemplate) (H : List QuestHistory)
    (A : List Quest) (today : Date) (u : Nat)
    (tws : List TemplateWithProject) (s : GenState) (tw : TemplateWithProject)
    (htw : tw ∈ tws) (hd : shouldGenerate T H A today tw.1 = true) :
    ∃ q ∈ (genLoop T H A today u tws s).2,
      q.templateId = orNullNat (some tw.1.id) := by
  have hmem : orNullNat (some tw.1.id)
      ∈ (genLoop T H A today u tws s).2.map (fun q => q.templateId) := by
    rw [genLoop_ids]
    exact List.mem_filterMap.mpr ⟨tw, htw, by rw [if_pos hd]⟩
  rcases List.mem_map.mp hmem with ⟨q, hq, he⟩
  exact ⟨q, hq, he⟩

end QuestLog

namespace QuestLog

/-- Generated quests all belong to the caller and start open, so the second
pass's `activeQuests` snapshot picks all of them up. -/
theorem genLoop_generated_open (T : List QuestTemplate) (H : List QuestHistory)
    (A : List Quest) (today : Date) (u : Nat)
    (tws : List TemplateWithProject) (s : GenState) :
    ((genLoop T H A today u tws s).2).filter
        (fun q => q.userId == u && isOpenStatus q.status)
      = (genLoop T H A today u tws s).2 := by
  apply List.filter_eq_self.mpr
  intro q hq
  rcases genLoop_mem T H A today u tws s q hq with ⟨tw, _, _, n, rfl⟩
  simp [generatedQuest_userId, generatedQuest_status, isOpenStatus]

/-- C2 helper: after one pass, every active template's decision is negative. -/
theorem secondPassDecisions (u : Nat) (allT : List TemplateWithProject)
    (H : List QuestHistory) (today : Date) (s : GenState)
    (hid : ∀ tw ∈ allT, tw.1.id ≠ 0) :
    ∀ tw ∈ allT.filter (fun tw => tw.1.userId == u && tw.1.isActive),
      shouldGenerate
        ((allT.filter (fun tw => tw.1.userId == u && tw.1.isActive)).map (fun tw => tw.1))
        H
        ((generateQuestsFromTemplates u allT H today s).1.quests.filter
          (fun q => q.userId == u && isOpenStatus q.status))
        today tw.1 = false := by
  intro tw htw
  set tws := allT.filter (fun tw => tw.1.userId == u && tw.1.isActive) with htws
  set T := tws.map (fun tw => tw.1) with hT
  set A1 := s.quests.filter (fun q => q.userId == u && isOpenStatus q.status) with hA1
  have hrun : generateQuestsFromTemplates u allT H today s = genLoop T H A1 today u tws s := rfl
  set gen := (genLoop T H A1 today u tws s).2 with hgen
  have hquests : (generateQuestsFromTemplates u allT H today s).1.quests
      = s.quests ++ gen := by
    rw [hrun]; exact genLoop_quests_append T H A1 today u tws s
  have hA2 : (generateQuestsFromTemplates u allT H today s).1.quests.filter
      (fun q => q.userId == u && isOpenStatus q.status) = A1 ++ gen := by
    rw [hquests, List.filter_append, genLoop_generated_open]
  rw [hA2]
  by_cases hd : shouldGenerate T H A1 today tw.1 = true
  · -- fired in the first pass: its open instance is now in the snapshot
    rcases genLoop_fired T H A1 today u tws s tw htw hd with ⟨q, hq, hqt⟩
    have hz : tw.1.id ≠ 0 := hid tw (List.mem_of_mem_filter htw)
    have hqt' : q.templateId = some tw.1.id := by rw [hqt, orNullNat_of_ne_zero hz]
    have hB : (A1 ++ gen).any (fun q2 => q2.templateId == some tw.1.id) = true := by
      refine List.any_eq_true.mpr ⟨q, List.mem_append_right _ hq, ?_⟩
      simp [hqt']
    apply Bool.not_eq_true _ |>.mp
    rw [shouldGenerate_eq_true_iff]
    intro hcon
    rw [hcon.2.1] at hB
    exact Bool.false_ne_true hB
  · -- skipped in the first pass: the reason still holds
    have hd' := (Bool.not_eq_true _).mp hd
    apply Bool.not_eq_true _ |>.mp
    rw [shouldGenerate_eq_true_iff]
    intro ⟨hvalid, hopen2, hcount⟩
    have hopen1 : A1.any (fun q2 => q2.templateId == some tw.1.id) = false := by
      rw [List.any_append] at hopen2
      exact (Bool.or_eq_false_iff.mp hopen2).1
    exact Bool.false_ne_true
      (hd' ▸ (shouldGenerate_eq_true_iff T H A1 today tw.1).mpr ⟨hvalid, hopen1, hcount⟩)

end QuestLog

namespace QuestLog

/-- C2: for every set of templates, open instances and history, running
`generateQuestsFromTemplates` twice on the same day with no state change
between the calls creates zero new instances on the second call, and the
set of stored instances after the second call equals the set after the
first.  (Template ids are SQLite AUTOINCREMENT keys, hence nonzero.) -/
theorem generate_twice_idempotent (u : Nat) (allT : List TemplateWithProject)
    (H : List QuestHistory) (today : Date) (s : GenState)
    (hid : ∀ tw ∈ allT, tw.1.id ≠ 0) :
    (generateQuestsFromTemplates u allT H today
        (generateQuestsFromTemplates u allT H today s).1).2 = []
    ∧ (generateQuestsFromTemplates u allT H today
        (generateQuestsFromTemplates u allT H today s).1).1.quests
      = (generateQuestsFromTemplates u allT H today s).1.quests := by
  have hall := secondPassDecisions u allT H today s hid
  have hrun2 : generateQuestsFromTemplates u allT H today
      (generateQuestsFromTemplates u allT H today s).1
    = genLoop
        ((allT.filter (fun tw => tw.1.userId == u && tw.1.isActive)).map (fun tw => tw.1))
        H
        ((generateQuestsFromTemplates u allT H today s).1.quests.filter
          (fun q => q.userId == u && isOpenStatus q.status))
        today u
        (allT.filter (fun tw => tw.1.userId == u && tw.1.isActive))
        (generateQuestsFromTemplates u allT H today s).1 := rfl
  rw [hrun2, genLoop_all_false _ _ _ _ _ _ _ hall]
  exact ⟨rfl, rfl⟩

/-- Witness for C2 at a concrete input: one active Daily template, empty
store; the first pass generates, the second is a no-op. -/
theorem generate_twice_idempotent_witness :
    (∀ tw ∈ [((tplDaily, none) : TemplateWithProject)], tw.1.id ≠ 0)
    ∧ ((generateQuestsFromTemplates 1 [(tplDaily, none)] [] d0
          (generateQuestsFromTemplates 1 [(tplDaily, none)] [] d0 emptyGenState).1).2 = []
      ∧ (generateQuestsFromTemplates 1 [(tplDaily, none)] [] d0
          (generateQuestsFromTemplates 1 [(tplDaily, none)] [] d0 emptyGenState).1).1.quests
        = (generateQuestsFromTemplates 1 [(tplDaily, none)] [] d0 emptyGenState).1.quests) :=
  ⟨by decide,
   generate_twice_idempotent 1 [(tplDaily, none)] [] d0 emptyGenState (by decide)⟩

end QuestLog

namespace QuestLog

theorem orNullNat_some_inj {x tid : Nat} (h : orNullNat (some x) = some tid) : x = tid := by
  cases x with
  | zero => simp [orNullNat] at h
  | succ k => simpa [orNullNat] using h

/-- Within one pass, a template id contributes at most as many generated
quests as it has occurrences in the template list. -/
theorem genLoop_open_count_le (T : List QuestTemplate) (H : List QuestHistory)
    (A : List Quest) (today : Date) (u : Nat) (tid : Nat) :
    ∀ (tws : List TemplateWithProject) (s : GenState),
      ((genLoop T H A today u tws s).2.countP
          (fun q => isOpenStatus q.status && q.templateId == some tid))
        ≤ tws.countP (fun tw => tw.1.id == tid) := by
  intro tws
  induction tws with
  | nil => intro s; simp [genLoop]
  | cons tw rest ih =>
      intro s
      by_cases h : shouldGenerate T H A today tw.1 = true
      · have hind : (if (isOpenStatus (generatedQuest T H today s.nextQuestId u tw).status
              && (generatedQuest T H today s.nextQuestId u tw).templateId == some tid) = true
            then 1 else 0)
            ≤ (if (tw.1.id == tid) = true then 1 else 0) := by
          by_cases hp : (isOpenStatus (generatedQuest T H today s.nextQuestId u tw).status
              && (generatedQuest T H today s.nextQuestId u tw).templateId == some tid) = true
          · rw [if_pos hp]
            have h2 : (generatedQuest T H today s.nextQuestId u tw).templateId = some tid := by
              have := ((Bool.and_eq_true _ _).mp hp).2
              exact beq_iff_eq.mp this
            rw [generatedQuest_templateId] at h2
            have h3 : tw.1.id = tid := orNullNat_some_inj h2
            simp [h3]
          · rw [if_neg hp]
            exact Nat.zero_le _
        simp only [genLoop, h, if_pos, List.countP_cons]
        exact Nat.add_le_add (ih _) hind
      · simp only [genLoop, h, List.countP_cons]
        rw [if_neg (by simp [h])]
        exact Nat.le_trans (ih s) (Nat.le_add_right _ _)

end QuestLog

namespace QuestLog

/-- C3: if at most one open instance exists for a template before a
generation pass, at most one exists after it — the generator checks the
open-instance snapshot before creating.  Hypotheses: the template id occurs
at most once in the template list (`id` is the table's primary key), and
instances carrying this template id belong to the generating user (all
store queries are userId-scoped). -/
theorem generation_at_most_one_open (u : Nat) (allT : List TemplateWithProject)
    (H : List QuestHistory) (today : Date) (s : GenState) (t : QuestTemplate)
    (htpl : allT.countP (fun tw => tw.1.id == t.id) ≤ 1)
    (hown : ∀ q ∈ s.quests, q.templateId = some t.id → q.userId = u)
    (hbefore : countOpenFor t.id s.quests ≤ 1) :
    countOpenFor t.id (generateQuestsFromTemplates u allT H today s).1.quests ≤ 1 := by
  set tws := allT.filter (fun tw => tw.1.userId == u && tw.1.isActive) with htws
  set T := tws.map (fun tw => tw.1) with hT
  set A1 := s.quests.filter (fun q => q.userId == u && isOpenStatus q.status) with hA1
  have hrun : generateQuestsFromTemplates u allT H today s = genLoop T H A1 today u tws s := rfl
  set gen := (genLoop T H A1 today u tws s).2 with hgen
  have hquests : (generateQuestsFromTemplates u allT H today s).1.quests
      = s.quests ++ gen := by
    rw [hrun]; exact genLoop_quests_append T H A1 today u tws s
  rw [countOpenFor, hquests, List.countP_append]
  have hgenle : gen.countP (fun q => isOpenStatus q.status && q.templateId == some t.id)
      ≤ tws.countP (fun tw => tw.1.id == t.id) :=
    genLoop_open_count_le T H A1 today u t.id tws s
  have htws_le : tws.countP (fun tw => tw.1.id == t.id)
      ≤ allT.countP (fun tw => tw.1.id == t.id) :=
    (List.filter_sublist allT).countP_le _
  rcases Nat.eq_zero_or_pos
      (gen.countP (fun q => isOpenStatus q.status && q.templateId == some t.id)) with h0 | hpos
  · rw [countOpenFor] at hbefore
    omega
  · -- something was generated for this template: nothing open existed before
    obtain ⟨q, hqmem, hqp⟩ := List.countP_pos_iff.mp hpos
    obtain ⟨tw, htwmem, hd, n, rfl⟩ := genLoop_mem T H A1 today u tws s q hqmem
    have hqtid : (generatedQuest T H today n u tw).templateId = some t.id :=
      beq_iff_eq.mp ((Bool.and_eq_true _ _).mp hqp).2
    rw [generatedQuest_templateId] at hqtid
    have hideq : tw.1.id = t.id := orNullNat_some_inj hqtid
    have hnone := ((shouldGenerate_eq_true_iff T H A1 today tw.1).mp hd).2.1
    have hzero : s.quests.countP
        (fun q => isOpenStatus q.status && q.templateId == some t.id) = 0 := by
      rw [List.countP_eq_zero]
      intro q2 hq2 hp2
      have hp2' := (Bool.and_eq_true _ _).mp hp2
      have hopen : isOpenStatus q2.status = true := hp2'.1
      have htid : q2.templateId = some t.id := beq_iff_eq.mp hp2'.2
      have huser : q2.userId = u := hown q2 hq2 htid
      have hmemA1 : q2 ∈ A1 := by
        rw [hA1]
        exact List.mem_filter.mpr ⟨hq2, by simp [huser, hopen]⟩
      have : A1.any (fun q3 => q3.templateId == some tw.1.id) = true :=
        List.any_eq_true.mpr ⟨q2, hmemA1, by simp [htid, hideq]⟩
      rw [hnone] at this
      exact Bool.false_ne_true this
    rw [countOpenFor] at hbefore
    omega

/-- Witness for C3 at a concrete input: the Daily template has one open
instance before the pass (so the pass skips it) and still one after. -/
theorem generation_at_most_one_open_witness :
    ([((tplDaily, none) : TemplateWithProject)].countP
        (fun tw => tw.1.id == tplDaily.id) ≤ 1)
    ∧ (∀ q ∈ myState.quests, q.templateId = some tplDaily.id → q.userId = 1)
    ∧ countOpenFor tplDaily.id myState.quests ≤ 1
    ∧ countOpenFor tplDaily.id
        (generateQuestsFromTemplates 1 [(tplDaily, none)] [] d0
          { quests := myState.quests, nextQuestId := 8 }).1.quests ≤ 1 :=
  ⟨by decide, by decide, by decide,
   generation_at_most_one_open 1 [(tplDaily, none)] [] d0
     { quests := myState.quests, nextQuestId := 8 } tplDaily
     (by decide) (by decide) (by decide)⟩

end QuestLog

namespace QuestLog

/-- C10: every instance created by a generation pass starts `unreceived`
with `acceptedAt = null`, carries the source template's id, copies its kind
and difficulty, and gets the kind-based auto-deadline (the generator always
passes `autoDeadline: true` and no explicit deadline). -/
theorem generated_instance_shape (u : Nat) (allT : List TemplateWithProject)
    (H : List QuestHistory) (today : Date) (s : GenState)
    (hid : ∀ tw ∈ allT, tw.1.id ≠ 0) :
    ∀ q ∈ (generateQuestsFromTemplates u allT H today s).2,
      q.status = .unreceived ∧ q.acceptedAt = none ∧
      ∃ tw ∈ allT, q.templateId = some tw.1.id ∧ q.questType = tw.1.questType
        ∧ q.difficulty = tw.1.difficulty
        ∧ q.deadline = calculateAutoDeadline today tw.1.questType := by
  intro q hq
  obtain ⟨tw, htw, hd, n, rfl⟩ := genLoop_mem _ _ _ today u _ s q hq
  have htwAll : tw ∈ allT := List.mem_of_mem_filter htw
  refine ⟨generatedQuest_status _ _ _ _ _ _, generatedQuest_acceptedAt _ _ _ _ _ _,
    tw, htwAll, ?_, generatedQuest_questType _ _ _ _ _ _,
    generatedQuest_difficulty _ _ _ _ _ _, generatedQuest_deadline _ _ _ _ _ _⟩
  rw [generatedQuest_templateId, orNullNat_of_ne_zero (hid tw htwAll)]

/-- Witness for C10: the concrete pass over one Daily template produces
exactly `sampleGenerated`, and the theorem's conclusions hold for it. -/
theorem generated_instance_shape_witness :
    sampleGenerated ∈ (generateQuestsFromTemplates 1 [(tplDaily, none)] [] d0 emptyGenState).2
    ∧ (sampleGenerated.status = .unreceived ∧ sampleGenerated.acceptedAt = none ∧
       ∃ tw ∈ [((tplDaily, none) : TemplateWithProject)],
         sampleGenerated.templateId = some tw.1.id
         ∧ sampleGenerated.questType = tw.1.questType
         ∧ sampleGenerated.difficulty = tw.1.difficulty
         ∧ sampleGenerated.deadline = calculateAutoDeadline d0 tw.1.questType) :=
  ⟨by decide,
   generated_instance_shape 1 [(tplDaily, none)] [] d0 emptyGenState (by decide)
     sampleGenerated (by decide)⟩

end QuestLog

namespace QuestLog

theorem fallbackName_cons_of_ne (t0 : QuestTemplate) (T : List QuestTemplate) (tid : Nat)
    (h : t0.id ≠ tid) : fallbackName (t0 :: T) tid = fallbackName T tid := by
  unfold fallbackName
  rw [List.find?_cons_of_neg]
  simp [h]

theorem fallbackName_cons_self (t0 : QuestTemplate) (T1 T2 : List QuestTemplate) :
    fallbackName (t0 :: T1) t0.id = fallbackName (t0 :: T2) t0.id := by
  unfold fallbackName
  rw [List.find?_cons_of_pos _ (by simp), List.find?_cons_of_pos _ (by simp)]

/-- `countCompletions` touches the template list only through the
legacy-record name fallback. -/
theorem countCompletions_congr (T1 T2 : List QuestTemplate) (H : List QuestHistory)
    (now : Date) (tid : Nat) (qt : QuestType)
    (h : fallbackName T1 tid = fallbackName T2 tid) :
    countCompletions T1 H now tid qt = countCompletions T2 H now tid qt := by
  unfold countCompletions
  cases completionWindowStart qt now with
  | none => rfl
  | some start => simp only [h]

theorem shouldGenerate_congr (T1 T2 : List QuestTemplate) (H : List QuestHistory)
    (A : List Quest) (today : Date) (t : QuestTemplate)
    (h : fallbackName T1 t.id = fallbackName T2 t.id) :
    shouldGenerate T1 H A today t = shouldGenerate T2 H A today t := by
  unfold shouldGenerate
  rw [countCompletions_congr T1 T2 H today t.id t.questType h]

end QuestLog

namespace QuestLog

/-- C8 (amended): a template with malformed (non-JSON-parseable) constraint
data never affects the other templates of the same pass — the generated
template ids for the rest are exactly what they would be without it — and
the malformed lists are treated as empty: a Weekly template whose day list
fails to parse falls back to pool semantics (never fires), while a Daily
template generates regardless of its malformed constraints (it is **not**
skipped). -/
theorem malformed_template_isolation (u : Nat) (tbad : TemplateWithProject)
    (rest : List TemplateWithProject) (H : List QuestHistory) (today : Date) (s : GenState)
    (hdisj : ∀ tw ∈ rest, tw.1.id ≠ tbad.1.id) :
    ((generateQuestsFromTemplates u (tbad :: rest) H today s).2.map (fun q => q.templateId))
      = ((generateQuestsFromTemplates u [tbad] H today s).2.map (fun q => q.templateId))
        ++ ((generateQuestsFromTemplates u rest H today s).2.map (fun q => q.templateId))
    ∧ (∀ d : Date, isTodayValid tplWeeklyBad d = false)
    ∧ (∀ d : Date, isTodayValid tplDailyBad d = true) := by
  refine ⟨?_, fun d => rfl, fun d => rfl⟩
  simp only [generateQuestsFromTemplates]
  rw [genLoop_ids, genLoop_ids, genLoop_ids]
  rw [List.filter_cons, List.filter_cons]
  by_cases hb : (tbad.1.userId == u && tbad.1.isActive) = true
  · rw [if_pos hb, if_pos hb]
    simp only [List.filter_nil, List.map_cons, List.map_nil]
    have hsplit :
        ((tbad :: rest.filter (fun tw => tw.1.userId == u && tw.1.isActive))).filterMap
            (fun tw =>
              if shouldGenerate
                  (tbad.1 :: (rest.filter (fun tw => tw.1.userId == u && tw.1.isActive)).map
                    (fun tw => tw.1)) H
                  (s.quests.filter (fun q => q.userId == u && isOpenStatus q.status))
                  today tw.1 = true
              then some (orNullNat (some tw.1.id)) else none)
          = ([tbad].filterMap
              (fun tw =>
                if shouldGenerate
                    (tbad.1 :: (rest.filter (fun tw => tw.1.userId == u && tw.1.isActive)).map
                      (fun tw => tw.1)) H
                    (s.quests.filter (fun q => q.userId == u && isOpenStatus q.status))
                    today tw.1 = true
                then some (orNullNat (some tw.1.id)) else none))
            ++ ((rest.filter (fun tw => tw.1.userId == u && tw.1.isActive)).filterMap
              (fun tw =>
                if shouldGenerate
                    (tbad.1 :: (rest.filter (fun tw => tw.1.userId == u && tw.1.isActive)).map
                      (fun tw => tw.1)) H
                    (s.quests.filter (fun q => q.userId == u && isOpenStatus q.status))
                    today tw.1 = true
                then some (orNullNat (some tw.1.id)) else none)) :=
      List.filterMap_append [tbad]
        (rest.filter (fun tw => tw.1.userId == u && tw.1.isActive)) _
    rw [hsplit]
    congr 1
    · apply List.filterMap_congr
      intro tw htw
      have htweq : tw = tbad := by simpa using htw
      subst htweq
      rw [shouldGenerate_congr _ _ H _ today tw.1
        (fallbackName_cons_self tw.1 _ [])]
    · apply List.filterMap_congr
      intro tw htw
      have hne : tbad.1.id ≠ tw.1.id :=
        Ne.symm (hdisj tw (List.mem_of_mem_filter htw))
      rw [shouldGenerate_congr _ _ H _ today tw.1
        (fallbackName_cons_of_ne tbad.1 _ tw.1.id hne)]
  · rw [if_neg hb, if_neg hb]
    simp [List.filter_nil]

end QuestLog

namespace QuestLog

/-- C8 counterexample (the claim as stated): a Daily template with
malformed constraint data is **not** skipped — the pass generates an
instance for it (and still processes the rest of the batch). -/
theorem malformed_daily_not_skipped :
    (generateQuestsFromTemplates 1 [(tplDailyBad, none), (tplWeeklyThu, none)] [] d0
        emptyGenState).2.map (fun q => q.templateId) = [some 4, some 5] := by decide

/-- Witness for C8 (amended) at a concrete input. -/
theorem malformed_template_isolation_witness :
    (∀ tw ∈ [((tplWeeklyThu, none) : TemplateWithProject)], tw.1.id ≠ tplWeeklyBad.id)
    ∧ (((generateQuestsFromTemplates 1 ((tplWeeklyBad, none) :: [(tplWeeklyThu, none)]) [] d0
          emptyGenState).2.map (fun q => q.templateId))
        = ((generateQuestsFromTemplates 1 [(tplWeeklyBad, none)] [] d0
            emptyGenState).2.map (fun q => q.templateId))
          ++ ((generateQuestsFromTemplates 1 [(tplWeeklyThu, none)] [] d0
            emptyGenState).2.map (fun q => q.templateId))
      ∧ (∀ d : Date, isTodayValid tplWeeklyBad d = false)
      ∧ (∀ d : Date, isTodayValid tplDailyBad d = true)) :=
  ⟨by decide,
   malformed_template_isolation 1 (tplWeeklyBad, none) [(tplWeeklyThu, none)] [] d0
     emptyGenState (by decide)⟩

/-- C1: the generator's switch has no `case "Monthly":` — the Monthly logic
is dead code after the Weekly `break` — so a Monthly template with
`datesOfMonth = [1,15]` does not match 2024-02-15 and generates nothing,
while the unreachable branch (and the documented behaviour) would match
2024-02-15 and reject 2024-02-16. -/
theorem monthly_case_unreachable :
    isTodayValid tplMonthly115 d0 = false
    ∧ (generateQuestsFromTemplates 1 [(tplMonthly115, none)] [] d0 emptyGenState).2 = []
    ∧ monthlyDeadBranch tplMonthly115 d0 = true
    ∧ monthlyDeadBranch tplMonthly115 d1 = false := by decide

/-- C4 counterexample: a Daily template cleared today has one HistoryRecord
in the spec's `[asOf, asOf]` window, but the source's `countCompletions`
returns 0 for Daily without consulting history. -/
theorem period_count_daily_counterexample :
    countCompletions [tplDaily] [histDailyCleared] d0 2 .Daily = 0
    ∧ specPeriodCount 2 .Daily d0 [histDailyCleared] = 1 := by decide

/-- C4 (amended): the period count is 0 for Daily (no history consulted);
for Weekly/Monthly/Yearly it counts records with matching `questType`,
matching `templateId` (or name fallback for NULL-`templateId` records),
`finalStatus = cleared`, and `recordedAt` on or after the window start —
with no upper bound.  The Weekly start is the most recent Sunday on or
before `now` (day number divisible by 7, within 6 days), the Monthly start
the first of the month, the Yearly start Jan 1. -/
theorem period_count_amended (T : List QuestTemplate) (H : List QuestHistory)
    (now : Date) (tid : Nat) :
    countCompletions T H now tid .Daily = 0
    ∧ countCompletions T H now tid .Weekly
        = H.countP (fun r =>
            r.questType == .Weekly &&
            (r.templateId == some tid ||
              (r.templateId == none && r.questName == some (fallbackName T tid))) &&
            (rataDie now - getDay now) ≤ r.recordedAt &&
            r.finalStatus == .cleared)
    ∧ ((rataDie now - getDay now) % 7 = 0
        ∧ rataDie now - getDay now ≤ rataDie now
        ∧ rataDie now - (rataDie now - getDay now) < 7
        ∧ ∀ s2 : Nat, s2 % 7 = 0 → s2 ≤ rataDie now → rataDie now - s2 < 7 →
            s2 = rataDie now - getDay now)
    ∧ countCompletions T H now tid .Monthly
        = H.countP (fun r =>
            r.questType == .Monthly &&
            (r.templateId == some tid ||
              (r.templateId == none && r.questName == some (fallbackName T tid))) &&
            rataDie { year := now.year, month := now.month, day := 1 } ≤ r.recordedAt &&
            r.finalStatus == .cleared)
    ∧ countCompletions T H now tid .Yearly
        = H.countP (fun r =>
            r.questType == .Yearly &&
            (r.templateId == some tid ||
              (r.templateId == none && r.questName == some (fallbackName T tid))) &&
            rataDie { year := now.year, month := 1, day := 1 } ≤ r.recordedAt &&
            r.finalStatus == .cleared) := by
  refine ⟨rfl, rfl, ⟨?_, ?_, ?_, ?_⟩, rfl, rfl⟩
  · unfold getDay; omega
  · unfold getDay; omega
  · unfold getDay; omega
  · intro s2 h1 h2 h3; unfold getDay; omega

/-- Witness for C4 (amended): the Weekly window start before 2024-02-15
(a Thursday) is day 738927 = Sunday 2024-02-11. -/
theorem period_count_amended_witness :
    (738927 % 7 = 0 ∧ 738927 ≤ rataDie d0 ∧ rataDie d0 - 738927 < 7)
    ∧ 738927 = rataDie d0 - getDay d0 :=
  ⟨⟨by decide, by decide, by decide⟩,
   ((period_count_amended [] [] d0 1).2.2.1).2.2.2 738927 (by decide) (by decide) (by decide)⟩

end QuestLog

namespace QuestLog

/-- C5: the streak update on a cleared transition — unchanged when already
cleared today; incremented when the last clear was yesterday; reset to 1
otherwise (first clear or gap); then longest := max and lastClearedDate :=
today.  The concrete conjuncts check the claim's scenario: streak 3 with
lastClearedDate = yesterday becomes 4, longest stays max(5, 4) = 5. -/
theorem streak_update_on_clear :
    (∀ (p : UserProgression) (today : Date) (xp : Nat),
      progressionStep p today xp true =
        if p.lastClearedDate = some today then
          { p with totalXp := p.totalXp + xp }
        else
          { p with
              totalXp := p.totalXp + xp
              currentStreak :=
                if p.lastClearedDate = some (predDate today) then p.currentStreak + 1 else 1
              longestStreak :=
                max p.longestStreak
                  (if p.lastClearedDate = some (predDate today) then p.currentStreak + 1 else 1)
              lastClearedDate := some today })
    ∧ (progressionStep streakFixture d0 25 true).currentStreak = 4
    ∧ (progressionStep streakFixture d0 25 true).longestStreak = 5
    ∧ (progressionStep streakFixture d0 25 true).lastClearedDate = some d0 := by
  refine ⟨?_, by decide, by decide, by decide⟩
  intro p today xp
  have hxp : (if xp != 0 then p.totalXp + xp else p.totalXp) = p.totalXp + xp := by
    cases xp with
    | zero => simp
    | succ n => simp
  simp only [progressionStep, hxp]
  by_cases h1 : p.lastClearedDate = some today
  · simp [h1]
  · have h1b : (p.lastClearedDate == some today) = false := by
      simp [h1]
    rw [if_neg h1, h1b]
    simp only [Bool.false_eq_true, if_false]
    by_cases h2 : p.lastClearedDate = some (predDate today)
    · have h2b : (p.lastClearedDate == some (predDate today)) = true := by
        simp [h2]
      rw [h2b, if_pos h2]
      simp only [if_true]
      have hmax : (if p.currentStreak + 1 > p.longestStreak
            then p.currentStreak + 1 else p.longestStreak)
          = max p.longestStreak (p.currentStreak + 1) := by
        rw [Nat.max_def]
        split <;> split <;> omega
      rw [hmax]
    · have h2b : (p.lastClearedDate == some (predDate today)) = false := by
        simp [h2]
      rw [h2b, if_neg h2]
      simp only [Bool.false_eq_true, if_false, ite_self]
      have hmax : (if 1 > p.longestStreak then 1 else p.longestStreak)
          = max p.longestStreak 1 := by
        rw [Nat.max_def]
        split <;> split <;> omega
      rw [hmax]
      simp

end QuestLog

namespace QuestLog

/-! ## Lemmas about the status route -/

theorem applyStatusUpdate_id (questId userId : Nat) (st : QStatus) (today : Date)
    (q : Quest) : (applyStatusUpdate questId userId st today q).id = q.id := by
  unfold applyStatusUpdate
  split <;> rfl

theorem applyStatusUpdate_difficulty (questId userId : Nat) (st : QStatus) (today : Date)
    (q : Quest) : (applyStatusUpdate questId userId st today q).difficulty = q.difficulty := by
  unfold applyStatusUpdate
  split <;> rfl

theorem applyStatusUpdate_skip (questId userId : Nat) (st : QStatus) (today : Date)
    (q : Quest) (h : ¬(q.id = questId ∧ q.userId = userId)) :
    applyStatusUpdate questId userId st today q = q := by
  unfold applyStatusUpdate
  rw [if_neg]
  simp only [Bool.and_eq_true, beq_iff_eq]
  exact h

/-- Re-selecting by id commutes with the guarded UPDATE (the UPDATE never
changes the id column). -/
theorem updateQuestStatus_find (questId userId : Nat) (st : QStatus) (today : Date)
    (l : List Quest) :
    (l.map (applyStatusUpdate questId userId st today)).find? (fun q => q.id == questId)
      = (l.find? (fun q => q.id == questId)).map (applyStatusUpdate questId userId st today) := by
  have hp : ((fun q : Quest => q.id == questId) ∘ (applyStatusUpdate questId userId st today))
      = (fun q : Quest => q.id == questId) := by
    funext q
    simp only [Function.comp]
    rw [applyStatusUpdate_id]
  rw [List.find?_map, hp]

theorem progressionStep_userId (p : UserProgression) (today : Date) (xp : Nat) (c : Bool) :
    (progressionStep p today xp c).userId = p.userId := by
  unfold progressionStep
  repeat' split
  all_goals rfl

theorem progressionStep_totalXp (p : UserProgression) (today : Date) (xp : Nat) (c : Bool) :
    (progressionStep p today xp c).totalXp
      = if xp != 0 then p.totalXp + xp else p.totalXp := by
  unfold progressionStep
  repeat' split
  all_goals simp_all

theorem find?_replace_userId (u : Nat) (p2 : UserProgression) (hp2 : p2.userId = u) :
    ∀ (l : List UserProgression) (p : UserProgression),
      l.find? (fun q => q.userId == u) = some p →
      (l.map (fun q => if q.userId == u then p2 else q)).find? (fun q => q.userId == u)
        = some p2 := by
  intro l
  induction l with
  | nil => intro p hp; simp at hp
  | cons a l ih =>
      intro p hp
      by_cases ha : (a.userId == u) = true
      · rw [List.map_cons, if_pos ha]
        have hgoal : List.find? (fun q : UserProgression => q.userId == u)
            (p2 :: l.map (fun q => if q.userId == u then p2 else q)) = some p2 :=
          List.find?_cons_of_pos _ (by simp [hp2])
        exact hgoal
      · rw [List.map_cons, if_neg ha]
        have hstep : List.find? (fun q : UserProgression => q.userId == u)
            (a :: l.map (fun q => if q.userId == u then p2 else q))
            = List.find? (fun q => q.userId == u)
                (l.map (fun q => if q.userId == u then p2 else q)) :=
          List.find?_cons_of_neg _ ha
        rw [hstep]
        apply ih
        have h2 : List.find? (fun q : UserProgression => q.userId == u) (a :: l)
            = List.find? (fun q => q.userId == u) l :=
          List.find?_cons_of_neg _ ha
        rw [h2] at hp
        exact hp

/-- Reading the caller's progression after `updateUserProgression` yields
exactly `progressionStep` of the row read (or created) before. -/
theorem getUserProgression_update (u : Nat) (today : Date) (xp : Nat) (c : Bool)
    (progs : List UserProgression) :
    getUserProgression u (updateUserProgression u today xp c progs)
      = progressionStep (getUserProgression u progs) today xp c := by
  cases hf : progs.find? (fun q => q.userId == u) with
  | none =>
      simp only [updateUserProgression, getUserProgression, hf]
      rw [List.find?_append]
      simp only [hf, Option.none_or]
      have hpos : List.find? (fun q : UserProgression => q.userId == u)
          [progressionStep
            { userId := u, totalXp := 0, currentStreak := 0, longestStreak := 0,
              lastClearedDate := none } today xp c]
          = some (progressionStep
            { userId := u, totalXp := 0, currentStreak := 0, longestStreak := 0,
              lastClearedDate := none } today xp c) :=
        List.find?_cons_of_pos _ (by rw [progressionStep_userId]; simp)
      rw [hpos]
  | some p =>
      simp only [updateUserProgression, getUserProgression, hf]
      have hu : p.userId = u := by
        have := List.find?_some hf
        exact beq_iff_eq.mp this
      rw [find?_replace_userId u _ (by rw [progressionStep_userId]; exact hu) progs p hf]

end QuestLog

namespace QuestLog

theorem calculateXpReward_ne_zero (d : Difficulty) : calculateXpReward d ≠ 0 := by
  cases d <;> decide

/-- The re-selected row after `updateQuestStatus` is the updated quest. -/
theorem updateQuestStatus_some (qid u : Nat) (st : QStatus) (today : Date)
    (quests : List Quest) (q0 : Quest)
    (hfind : quests.find? (fun q => q.id == qid) = some q0) :
    (updateQuestStatus qid u st today quests).2
      = some (applyStatusUpdate qid u st today q0) := by
  simp only [updateQuestStatus]
  rw [updateQuestStatus_find, hfind]
  rfl

/-- C6: transitioning an owned instance to `cleared` awards XP determined
solely by difficulty ("1" → 10, "2" → 25, "3" → 50), writes exactly one
HistoryRecord with `finalStatus = cleared` and `xpEarned` equal to the
award, adds the award to the caller's `totalXp`, and returns the updated
instance together with the XP. -/
theorem clear_awards_xp (s : AppState) (u qid : Nat) (today : Date) (q0 : Quest)
    (hfind : s.quests.find? (fun q => q.id == qid) = some q0) :
    (updateStatusRoute u qid .cleared today s).2
        = .ok (some (applyStatusUpdate qid u .cleared today q0))
            (some (calculateXpReward q0.difficulty))
    ∧ (calculateXpReward q0.difficulty
        = match q0.difficulty with | .d1 => 10 | .d2 => 25 | .d3 => 50)
    ∧ (updateStatusRoute u qid .cleared today s).1.history
        = s.history ++ [historyRecord u qid (applyStatusUpdate qid u .cleared today q0)
            .cleared (calculateXpReward q0.difficulty) today]
    ∧ (historyRecord u qid (applyStatusUpdate qid u .cleared today q0)
        .cleared (calculateXpReward q0.difficulty) today).finalStatus = .cleared
    ∧ (historyRecord u qid (applyStatusUpdate qid u .cleared today q0)
        .cleared (calculateXpReward q0.difficulty) today).xpEarned
        = calculateXpReward q0.difficulty
    ∧ (getUserProgression u (updateStatusRoute u qid .cleared today s).1.progressions).totalXp
        = (getUserProgression u s.progressions).totalXp + calculateXpReward q0.difficulty := by
  have hq := updateQuestStatus_some qid u .cleared today s.quests q0 hfind
  have hdiff : (applyStatusUpdate qid u .cleared today q0).difficulty = q0.difficulty :=
    applyStatusUpdate_difficulty qid u .cleared today q0
  have hroute : updateStatusRoute u qid .cleared today s
      = ({ quests := (updateQuestStatus qid u .cleared today s.quests).1
           history := s.history
             ++ [historyRecord u qid (applyStatusUpdate qid u .cleared today q0)
                  .cleared (calculateXpReward q0.difficulty) today]
           progressions := updateUserProgression u today
             (calculateXpReward q0.difficulty) true s.progressions },
         RouteOutcome.ok (some (applyStatusUpdate qid u .cleared today q0))
           (some (calculateXpReward q0.difficulty))) := by
    simp only [updateStatusRoute, hq, hdiff]
    rfl
  rw [hroute]
  refine ⟨rfl, by cases q0.difficulty <;> rfl, rfl, rfl, rfl, ?_⟩
  rw [getUserProgression_update, progressionStep_totalXp]
  have hne : (calculateXpReward q0.difficulty != 0) = true := by
    cases q0.difficulty <;> decide
  rw [if_pos hne]

/-- Witness for C6: clearing the concrete difficulty-"2" quest of `myState`
awards 25 XP, writes one cleared HistoryRecord for it, and lands 25 XP on
the fresh progression row. -/
theorem clear_awards_xp_witness :
    (myState.quests.find? (fun q => q.id == 5) = some myQuest)
    ∧ (updateStatusRoute 1 5 .cleared d0 myState).2
        = .ok (some (applyStatusUpdate 5 1 .cleared d0 myQuest)) (some 25)
    ∧ (updateStatusRoute 1 5 .cleared d0 myState).1.history.length = 1
    ∧ (getUserProgression 1 (updateStatusRoute 1 5 .cleared d0 myState).1.progressions).totalXp
        = 25 := by
  have h := clear_awards_xp myState 1 5 d0 myQuest (by decide)
  refine ⟨by decide, ?_, by decide, by decide⟩
  exact h.1

/-- C7: transitioning an instance to paused, cancelled or failed writes
exactly one HistoryRecord with `xpEarned = 0` and leaves the progression
table (hence every field of ProgressionState) untouched. -/
theorem terminal_without_clear_no_xp (s : AppState) (u qid : Nat) (st : QStatus)
    (today : Date) (q0 : Quest)
    (hst : st = .paused ∨ st = .cancelled ∨ st = .failed)
    (hfind : s.quests.find? (fun q => q.id == qid) = some q0) :
    (updateStatusRoute u qid st today s).1.history
        = s.history ++ [historyRecord u qid (applyStatusUpdate qid u st today q0) st 0 today]
    ∧ (historyRecord u qid (applyStatusUpdate qid u st today q0) st 0 today).xpEarned = 0
    ∧ (updateStatusRoute u qid st today s).1.progressions = s.progressions
    ∧ (updateStatusRoute u qid st today s).2
        = .ok (some (applyStatusUpdate qid u st today q0)) none := by
  have hq := updateQuestStatus_some qid u st today s.quests q0 hfind
  rcases hst with rfl | rfl | rfl <;>
    simp only [updateStatusRoute, hq] <;>
    exact ⟨rfl, rfl, rfl, rfl⟩

/-- Witness for C7: pausing the concrete quest of `myState`. -/
theorem terminal_without_clear_no_xp_witness :
    (myState.quests.find? (fun q => q.id == 5) = some myQuest)
    ∧ (updateStatusRoute 1 5 .paused d0 myState).1.history
        = myState.history
          ++ [historyRecord 1 5 (applyStatusUpdate 5 1 .paused d0 myQuest) .paused 0 d0]
    ∧ (historyRecord 1 5 (applyStatusUpdate 5 1 .paused d0 myQuest) .paused 0 d0).xpEarned = 0
    ∧ (updateStatusRoute 1 5 .paused d0 myState).1.progressions = myState.progressions
    ∧ (updateStatusRoute 1 5 .paused d0 myState).2
        = .ok (some (applyStatusUpdate 5 1 .paused d0 myQuest)) none := by
  have h := terminal_without_clear_no_xp myState 1 5 .paused d0 myQuest
    (Or.inl rfl) (by decide)
  exact ⟨by decide, h.1, h.2.1, h.2.2.1, h.2.2.2⟩

end QuestLog

namespace QuestLog

/-- C9 counterexample: user 1 transitions user 2's quest (id 7) to
`cleared`.  No quest with (id = 7, userId = 1) exists, yet the route
succeeds (no lookup failure), writes a HistoryRecord, and credits 10 XP to
user 1's progression — while the foreign row itself is untouched. -/
theorem foreign_update_counterexample :
    (∀ q ∈ foreignState.quests, ¬(q.id = 7 ∧ q.userId = 1))
    ∧ (updateStatusRoute 1 7 .cleared d0 foreignState).2
        = .ok (some foreignQuest) (some 10)
    ∧ (updateStatusRoute 1 7 .cleared d0 foreignState).1.history.length = 1
    ∧ (getUserProgression 1
        (updateStatusRoute 1 7 .cleared d0 foreignState).1.progressions).totalXp = 10 := by
  decide

/-- C9 (amended): the guarded UPDATE never mutates a row that does not
match both id and userId.  For a nonexistent id the operation performs no
mutation at all: terminal target statuses surface as a runtime error
(property access on the `undefined` re-select), non-terminal ones return
without error.  But a transition naming another user's instance is *not*
surfaced as a lookup failure: the row stays unmodified, yet on `cleared`
the route reads the foreign quest, writes a HistoryRecord for the caller
and returns success with the XP. -/
theorem status_update_lookup_amended (s : AppState) (u qid : Nat) (st : QStatus)
    (today : Date) :
    (∀ q ∈ s.quests, q.userId ≠ u → q ∈ (updateStatusRoute u qid st today s).1.quests)
    ∧ ((∀ q ∈ s.quests, q.id ≠ qid) →
        ((updateStatusRoute u qid st today s).1 = s
         ∧ (isTerminalStatus st = true →
              (updateStatusRoute u qid st today s).2 = .runtimeError)
         ∧ (isTerminalStatus st = false →
              (updateStatusRoute u qid st today s).2 = .ok none none)))
    ∧ (∀ q0 : Quest, s.quests.find? (fun q => q.id == qid) = some q0 →
        (∀ q ∈ s.quests, q.id = qid → q.userId ≠ u) → st = .cleared →
          ((updateStatusRoute u qid st today s).1.quests = s.quests
           ∧ (updateStatusRoute u qid st today s).1.history
              = s.history ++ [historyRecord u qid q0 .cleared
                  (calculateXpReward q0.difficulty) today]
           ∧ (updateStatusRoute u qid st today s).2
              = .ok (some q0) (some (calculateXpReward q0.difficulty)))) := by
  refine ⟨?_, ?_, ?_⟩
  · -- frame: rows of other users are never mutated
    intro q hq hne
    have hfix : applyStatusUpdate qid u st today q = q :=
      applyStatusUpdate_skip qid u st today q (fun hc => hne hc.2)
    have : q ∈ s.quests.map (applyStatusUpdate qid u st today) := by
      have hm := List.mem_map_of_mem (applyStatusUpdate qid u st today) hq
      rw [hfix] at hm
      exact hm
    simp only [updateStatusRoute, updateQuestStatus]
    cases hsel : (s.quests.map (applyStatusUpdate qid u st today)).find?
        (fun q2 => q2.id == qid) with
    | none =>
        cases hterm : isTerminalStatus st <;> simp [hsel, hterm, this]
    | some qf =>
        by_cases hcl : st = .cleared
        · subst hcl; simp [hsel, this]
        · by_cases hpcf : (st == .paused || st == .cancelled || st == .failed) = true
          · simp [hsel, hpcf, this, hcl]
          · simp [hsel, hpcf, this, hcl]
  · -- nonexistent id: no mutation; error only for terminal statuses
    intro hnone
    have hmapid : s.quests.map (applyStatusUpdate qid u st today) = s.quests := by
      have : s.quests.map (applyStatusUpdate qid u st today) = s.quests.map id :=
        List.map_congr_left (fun q hq =>
          applyStatusUpdate_skip qid u st today q (fun hc => hnone q hq hc.1))
      rw [this, List.map_id]
    have hsel : (s.quests.map (applyStatusUpdate qid u st today)).find?
        (fun q2 => q2.id == qid) = none := by
      rw [hmapid]
      rw [List.find?_eq_none]
      intro q hq
      simp [hnone q hq]
    refine ⟨?_, ?_, ?_⟩
    · simp only [updateStatusRoute, updateQuestStatus, hsel]
      cases hterm : isTerminalStatus st <;> simp [hmapid]
    · intro hterm
      simp only [updateStatusRoute, updateQuestStatus, hsel, hterm]
      rfl
    · intro hterm
      simp only [updateStatusRoute, updateQuestStatus, hsel, hterm]
      rfl
  · -- foreign instance: row untouched, but history and success anyway
    intro q0 hfind hforeign hcl
    subst hcl
    have hmapid : s.quests.map (applyStatusUpdate qid u .cleared today) = s.quests := by
      have : s.quests.map (applyStatusUpdate qid u .cleared today) = s.quests.map id :=
        List.map_congr_left (fun q hq =>
          applyStatusUpdate_skip qid u .cleared today q
            (fun hc => hforeign q hq hc.1 hc.2))
      rw [this, List.map_id]
    have hsel : (s.quests.map (applyStatusUpdate qid u .cleared today)).find?
        (fun q2 => q2.id == qid) = some q0 := by
      rw [hmapid]; exact hfind
    refine ⟨?_, ?_, ?_⟩
    · simp only [updateStatusRoute, updateQuestStatus, hsel]
      simp [hmapid]
    · simp only [updateStatusRoute, updateQuestStatus, hsel]
      rfl
    · simp only [updateStatusRoute, updateQuestStatus, hsel]
      rfl

/-- Witness for C9 (amended): a transition on an id absent from an empty
store changes nothing and returns without error for a non-terminal target. -/
theorem status_update_lookup_amended_witness :
    (updateStatusRoute 1 3 .accepted d0 emptyAppState).1 = emptyAppState
    ∧ (updateStatusRoute 1 3 .accepted d0 emptyAppState).2 = .ok none none := by
  have h := (status_update_lookup_amended emptyAppState 1 3 .accepted d0).2.1
    (by intro q hq; simp [emptyAppState] at hq)
  exact ⟨h.1, h.2.2 rfl⟩

end QuestLog
